import Mathlib

/-!
Verification development for the coercive-control analyzer's pattern-detection
core: the DARVO keyword engine (`darvo_analyzer.py`), its lexicon
(`darvo_indicators.py`) and the fuzzy matching primitive
(`abuse_pattern_engine.py`).  Python strings are embedded as `String` /
`List Char`, datetimes as day numbers (`Int`, days since 1970-01-01, which was
a Thursday), dictionaries as association lists in insertion order, and the
wall clock (`datetime.now()`) as an explicit `now : Int` parameter.
-/

set_option maxRecDepth 100000

namespace CCA

/-- Embeds Python `str.lower()` (ASCII range) as a character list. -/
def lowerChars (s : String) : List Char := s.data.map Char.toLower

/-- Python regex `\w` for the ASCII range: letters, digits and underscore. -/
def isWordChar (c : Char) : Bool := c.isAlphanum || c == '_'

/-- Whether the character at position `p` of `t` is a word character
(out-of-range positions count as non-word, matching regex semantics at the
ends of the string). -/
def wordAt (t : List Char) (p : Nat) : Bool := isWordChar (t.getD p ' ')

/-- Python regex `\b`: position `p` of `t` is a word boundary when the
word-character status changes between the previous character and the
character at `p`. -/
def boundaryAt (t : List Char) (p : Nat) : Bool :=
  (if p = 0 then false else wordAt t (p - 1)) != wordAt t p

/-- Embeds `re.search(r'\b' + re.escape(keyword.lower()) + r'\b', text.lower())`
from `darvo_analyzer.py`: some occurrence of the lowercased keyword in the
lowercased text with word boundaries on both sides. -/
def hasKeyword (kw text : String) : Bool :=
  let k := lowerChars kw
  let t := lowerChars text
  (List.range (t.length + 1)).any fun i =>
    k.isPrefixOf (t.drop i) && boundaryAt t i && boundaryAt t (i + k.length)

/-- Whether any keyword of the list matches the text under the word-boundary
matcher (the `any(...)` generators in `darvo_analyzer.py`). -/
def anyKeyword (kws : List String) (text : String) : Bool :=
  kws.any fun kw => hasKeyword kw text

/-! ### difflib.SequenceMatcher (used by `AbusePatternEngine.fuzzy_match`)

`SequenceMatcher(None, a, b).ratio()` is `2*M/(|a|+|b|)` where `M` is the
total size of the matching blocks: recursively take the longest common
substring (ties broken towards the smallest index in `a`, then in `b` —
difflib scans ending positions of `a` ascending and, within one ending
position, positions of `b` ascending, replacing only on strictly larger
size), then recurse on the parts to its left and to its right.  With no junk
characters (the strings here are far below difflib's autojunk threshold of
200) this brute-force formulation coincides with difflib's dynamic program. -/

/-- Length of the longest common prefix of two character lists. -/
def commonPrefixLen : List Char → List Char → Nat
  | a :: as, b :: bs => if a = b then commonPrefixLen as bs + 1 else 0
  | _, _ => 0

theorem commonPrefixLen_le_left : ∀ a b : List Char, commonPrefixLen a b ≤ a.length := by
  intro a
  induction a with
  | nil => intro b; cases b <;> simp [commonPrefixLen]
  | cons x xs ih =>
    intro b
    cases b with
    | nil => simp [commonPrefixLen]
    | cons y ys =>
      simp only [commonPrefixLen, List.length_cons]
      split
      · have := ih ys; omega
      · omega

/-- All candidate matches: a start in `a`, a start in `b`, and the length of
the common run beginning there. -/
def matchCands (a b : List Char) : List (Nat × Nat × Nat) :=
  ((List.range a.length).product (List.range b.length)).map
    fun p => (p.1, p.2, commonPrefixLen (a.drop p.1) (b.drop p.2))

/-- Keep the candidate with the strictly larger run length (first maximum in
scan order wins, matching difflib's tie-breaking). -/
def pickBest (best c : Nat × Nat × Nat) : Nat × Nat × Nat :=
  if best.2.2 < c.2.2 then c else best

/-- Longest matching block of `a` and `b` in difflib's sense: `(i, j, size)`,
with `(0, 0, 0)` when there is no common run. -/
def bestMatch (a b : List Char) : Nat × Nat × Nat :=
  (matchCands a b).foldl pickBest (0, 0, 0)

theorem foldl_pickBest_choice (l : List (Nat × Nat × Nat)) (acc : Nat × Nat × Nat) :
    l.foldl pickBest acc = acc ∨ l.foldl pickBest acc ∈ l := by
  induction l generalizing acc with
  | nil => left; rfl
  | cons c cs ih =>
    have step : pickBest acc c = acc ∨ pickBest acc c = c := by
      unfold pickBest; split
      · right; rfl
      · left; rfl
    rw [List.foldl_cons]
    rcases ih (pickBest acc c) with h | h
    · rw [h]
      rcases step with hs | hs
      · left; exact hs
      · right; rw [hs]; exact List.mem_cons_self c cs
    · right; exact List.mem_cons_of_mem c h

theorem bestMatch_bounds (a b : List Char) (i j k : Nat)
    (h : bestMatch a b = (i, j, k)) (hk : k ≠ 0) :
    i < a.length ∧ i + k ≤ a.length := by
  rcases foldl_pickBest_choice (matchCands a b) (0, 0, 0) with h0 | hmem
  · rw [bestMatch] at h; rw [h0] at h
    cases h; exact absurd rfl hk
  · rw [bestMatch] at h; rw [h] at hmem
    rcases List.mem_map.mp hmem with ⟨p, hp, hpe⟩
    rcases List.pair_mem_product.mp hp with ⟨hp1, hp2⟩
    have hi : p.1 < a.length := List.mem_range.mp hp1
    have hk' : k = commonPrefixLen (a.drop p.1) (b.drop p.2) := by
      have := congrArg (fun q : Nat × Nat × Nat => q.2.2) hpe
      simpa using this.symm
    have hieq : i = p.1 := by
      have := congrArg (fun q : Nat × Nat × Nat => q.1) hpe
      simpa using this.symm
    have hle : commonPrefixLen (a.drop p.1) (b.drop p.2) ≤ a.length - p.1 := by
      have := commonPrefixLen_le_left (a.drop p.1) (b.drop p.2)
      simpa [List.length_drop] using this
    subst hieq
    omega

/-- Total size of difflib's matching blocks, with explicit recursion fuel so
that the kernel can evaluate it.  Each recursive call strictly shrinks the
first list (see `bestMatch_bounds`), so any fuel above `a.length` computes
the untruncated recursion (`matchTotalFuel_congr`). -/
def matchTotalFuel : Nat → List Char → List Char → Nat
  | 0, _, _ => 0
  | fuel + 1, a, b =>
    match bestMatch a b with
    | (i, j, k) =>
      if k = 0 then 0
      else
        matchTotalFuel fuel (a.take i) (b.take j) + k +
          matchTotalFuel fuel (a.drop (i + k)) (b.drop (j + k))

/-- Total size of difflib's matching blocks of `a` and `b` (the `M` in
`ratio() = 2*M/T`). -/
def matchTotal (a b : List Char) : Nat := matchTotalFuel (a.length + 1) a b

theorem matchTotalFuel_congr :
    ∀ (n f1 f2 : Nat) (a b : List Char), a.length ≤ n → a.length < f1 → a.length < f2 →
      matchTotalFuel f1 a b = matchTotalFuel f2 a b := by
  intro n
  induction n with
  | zero =>
    intro f1 f2 a b hn h1 h2
    match f1, f2 with
    | g1 + 1, g2 + 1 =>
      have ha : a = [] := List.length_eq_zero.mp (Nat.le_zero.mp hn)
      subst ha
      rfl
  | succ n ih =>
    intro f1 f2 a b hn h1 h2
    match f1, f2 with
    | g1 + 1, g2 + 1 =>
      show (match bestMatch a b with
            | (i, j, k) =>
              if k = 0 then 0
              else matchTotalFuel g1 (a.take i) (b.take j) + k +
                matchTotalFuel g1 (a.drop (i + k)) (b.drop (j + k))) =
           (match bestMatch a b with
            | (i, j, k) =>
              if k = 0 then 0
              else matchTotalFuel g2 (a.take i) (b.take j) + k +
                matchTotalFuel g2 (a.drop (i + k)) (b.drop (j + k)))
      rcases hbm : bestMatch a b with ⟨i, j, k⟩
      by_cases hk : k = 0
      · simp [hk]
      · have hb := bestMatch_bounds a b i j k hbm hk
        have htake : (a.take i).length = i := by
          simp only [List.length_take]; omega
        have hdrop : (a.drop (i + k)).length = a.length - (i + k) := List.length_drop _ _
        have e1 : matchTotalFuel g1 (a.take i) (b.take j) =
            matchTotalFuel g2 (a.take i) (b.take j) := by
          apply ih g1 g2 <;> omega
        have e2 : matchTotalFuel g1 (a.drop (i + k)) (b.drop (j + k)) =
            matchTotalFuel g2 (a.drop (i + k)) (b.drop (j + k)) := by
          apply ih g1 g2 <;> omega
        simp [hk, e1, e2]

/-- SequenceMatcher `ratio()` as an exact rational: `2*M/T`, and `1` when both
strings are empty (difflib's convention). -/
def ratioOf (a b : List Char) : ℚ :=
  if a.length + b.length = 0 then 1
  else (2 * (matchTotal a b : ℚ)) / ((a.length + b.length : Nat) : ℚ)

/-- The comparison `ratio() >= 0.85` in exact integer arithmetic:
`2*M/T ≥ 17/20` iff `17*T ≤ 40*M` (and trivially true for `T = 0`, where
difflib returns ratio 1.0).  Exact for the float comparison as well, since
`2.0*M/T` is correctly rounded and the quantities involved are far below the
precision limit.  `ratioGE85_iff_ratioOf` relates it to `ratioOf`. -/
def ratioGE85 (a b : List Char) : Bool :=
  decide (17 * (a.length + b.length) ≤ 40 * matchTotal a b)

/-- Embeds `AbusePatternEngine.fuzzy_match(text, keyword, threshold=0.85)`
from `abuse_pattern_engine.py`: the SequenceMatcher ratio of the whole
lowercased text against the whole lowercased keyword reaches the threshold. -/
def fuzzyMatch (text keyword : String) : Bool :=
  ratioGE85 (lowerChars text) (lowerChars keyword)

/-- Modelled from the spec: fuzzy matching per the spec's words — the
similarity ratio between the keyword and every equal-length sliding substring
of the text, with a hit when some window reaches 0.85.  Stated for comparison
with the source's `fuzzyMatch`, which the spec sentence claims to describe. -/
def fuzzyMatchSpecWindowed (text keyword : String) : Bool :=
  let a := lowerChars text
  let b := lowerChars keyword
  (List.range (a.length + 1 - b.length)).any fun i =>
    ratioGE85 ((a.drop i).take b.length) b

/-! ### The DARVO lexicon (`darvo_indicators.py`)

`DARVO_INDICATORS`, `CHILD_FOCUSED_DARVO` and `DARVO_SEVERITY_WEIGHTS`
transcribed verbatim; dictionaries become association lists in insertion
order. -/

/-- Subcategories of `DARVO_INDICATORS["Deny"]`. -/
def denyIndicators : List (String × List String) :=
  [("minimization",
    ["it wasn\x27t that bad", "you\x27re exaggerating", "it\x27s not a big deal",
     "you\x27re making it worse than it was", "that never happened",
     "you\x27re remembering it wrong", "it wasn\x27t like that",
     "you\x27re blowing it out of proportion",
     "I barely", "I hardly", "all I did was", "I only", "just a little",
     "not as bad as", "everyone does it", "it\x27s normal", "that\x27s just how I am"]),
   ("outright_denial",
    ["I never said that", "I never did that", "that didn\x27t happen",
     "you\x27re lying", "you made that up", "prove it", "where\x27s your evidence",
     "that\x27s not true", "I would never", "you\x27re making things up",
     "I don\x27t remember that", "you\x27re confused", "you\x27re mistaken",
     "that\x27s fabricated", "complete lies", "false accusations"]),
   ("blame_shifting",
    ["you made me", "you provoked me", "you started it",
     "if you hadn\x27t", "you caused this", "it\x27s your fault",
     "you pushed me to", "you left me no choice", "what did you expect",
     "you should have", "you shouldn\x27t have", "because of you",
     "you\x27re responsible for", "you brought this on yourself"])]

/-- Subcategories of `DARVO_INDICATORS["Attack"]`. -/
def attackIndicators : List (String × List String) :=
  [("credibility_attacks",
    ["you\x27re crazy", "you\x27re mentally ill", "you\x27re unstable",
     "you need help", "you\x27re delusional", "you\x27re paranoid",
     "you\x27re irrational", "you can\x27t be trusted", "you\x27re unreliable",
     "everyone knows you\x27re", "history of lying", "track record",
     "you always lie", "nobody believes you", "you\x27re not credible",
     "you have issues", "seek therapy", "get help"]),
   ("character_assassination",
    ["you\x27re a bad mother", "you\x27re a bad father", "unfit parent",
     "bad person", "terrible", "vindictive", "vengeful",
     "manipulative", "controlling", "abusive", "toxic",
     "you\x27re the problem", "you\x27re the one", "you\x27re actually",
     "you\x27re just like", "narcissist", "sociopath", "psycho"]),
   ("threat_of_consequences",
    ["I\x27ll tell everyone", "I\x27ll expose you", "everyone will know",
     "you\x27ll lose the kids", "I\x27ll take the children", "custody",
     "I\x27ll ruin you", "destroy your reputation", "nobody will believe you",
     "you\x27ll regret this", "you\x27ll pay for this", "I\x27ll make sure",
     "the court will see", "the judge will know", "I\x27ll prove",
     "evidence against you", "document everything", "legal action"]),
   ("gaslighting",
    ["that never happened", "you\x27re imagining things", "you\x27re too sensitive",
     "you\x27re overreacting", "you can\x27t take a joke", "you\x27re being dramatic",
     "you\x27re twisting things", "that\x27s not what I meant", "you misunderstood",
     "you\x27re reading too much into it", "you\x27re being ridiculous",
     "you\x27re making a scene", "calm down", "relax"])]

/-- Subcategories of `DARVO_INDICATORS["Reverse_Victim_Offender"]`. -/
def reverseIndicators : List (String × List String) :=
  [("self_victimization",
    ["I\x27m the victim here", "I\x27m the one suffering", "what about me",
     "I\x27m being attacked", "I\x27m being abused", "I\x27m being harassed",
     "you\x27re hurting me", "you\x27re destroying me", "I can\x27t take this anymore",
     "look what you\x27ve done to me", "I\x27m the one in pain",
     "I\x27m being treated unfairly", "I\x27m being persecuted",
     "this is abuse", "you\x27re abusing me", "I need protection from you"]),
   ("victim_blaming",
    ["you\x27re the real abuser", "you\x27re the manipulator", "you\x27re controlling",
     "you\x27re the violent one", "you started this", "you\x27re the aggressor",
     "you\x27re alienating the children", "parental alienation",
     "you\x27re turning them against me", "you\x27re poisoning them",
     "you\x27re using the children", "you\x27re the narcissist",
     "you\x27re projecting", "you\x27re doing exactly what you accuse me of"]),
   ("false_equivalence",
    ["we\x27re both", "you do it too", "you\x27re just as bad",
     "you\x27re no better", "we both", "mutual abuse",
     "it\x27s mutual", "both sides", "we\x27re equally",
     "you also", "what about when you", "remember when you",
     "you\x27ve done worse", "at least I didn\x27t"]),
   ("protective_parent_reversal",
    ["I\x27m protecting the children from you", "the children are afraid of you",
     "I\x27m the safe parent", "you\x27re unstable around the kids",
     "I\x27m the primary caregiver", "the children need me",
     "you\x27re a danger to them", "I\x27m keeping them safe",
     "they don\x27t want to see you", "they\x27re scared of you",
     "I\x27m acting in their best interest"])]

/-- Subcategories of `DARVO_INDICATORS["Institutional_DARVO"]`. -/
def institutionalIndicators : List (String × List String) :=
  [("court_manipulation",
    ["false allegations", "she\x27s lying to the court", "he\x27s deceiving the judge",
     "fabricated evidence", "coached the children", "parental alienation syndrome",
     "high conflict parent", "making false reports", "weaponizing the system",
     "abusing the legal process", "frivolous complaints",
     "attention seeking", "playing the victim card"]),
   ("professional_credibility",
    ["I\x27m a professional", "I\x27m a respected member", "my reputation",
     "my standing in the community", "never had complaints before",
     "exemplary record", "decorated", "award winning",
     "everyone knows me as", "ask anyone", "references will show"]),
   ("systemic_bias_indicators",
    ["mothers always get", "fathers are discriminated against",
     "the system is biased", "family court favors", "automatically believes",
     "without investigation", "rushed to judgment", "presumed guilty",
     "not given a fair chance", "predetermined outcome"])]

/-- `CHILD_FOCUSED_DARVO`. -/
def childFocusedIndicators : List (String × List String) :=
  [("child_weaponization",
    ["the children say", "ask the kids", "children don\x27t lie",
     "they told me about", "they witnessed", "they\x27re afraid of you",
     "they don\x27t want to see you", "they asked me to",
     "protecting the children", "for the kids\x27 safety"]),
   ("parental_alienation_claims",
    ["parental alienation", "turning the children against me",
     "poisoning their minds", "coaching the children",
     "brainwashing", "manipulating the kids"]),
   ("custody_threats",
    ["you\x27ll never see them again", "I\x27ll get full custody",
     "no visitation", "supervised visits only", "unfit parent",
     "not safe around children", "danger to the kids"])]

/-- `DARVO_SEVERITY_WEIGHTS["Deny"]`. -/
def denyWeight (subcat : String) : Nat :=
  if subcat = "minimization" then 1
  else if subcat = "outright_denial" then 2
  else if subcat = "blame_shifting" then 3
  else 0

/-- `DARVO_SEVERITY_WEIGHTS["Attack"]`. -/
def attackWeight (subcat : String) : Nat :=
  if subcat = "credibility_attacks" then 3
  else if subcat = "character_assassination" then 4
  else if subcat = "threat_of_consequences" then 5
  else if subcat = "gaslighting" then 3
  else 0

/-- `DARVO_SEVERITY_WEIGHTS["Reverse_Victim_Offender"]`. -/
def reverseWeight (subcat : String) : Nat :=
  if subcat = "self_victimization" then 3
  else if subcat = "victim_blaming" then 4
  else if subcat = "false_equivalence" then 2
  else if subcat = "protective_parent_reversal" then 5
  else 0

/-- `DARVO_SEVERITY_WEIGHTS["Institutional_DARVO"]`. -/
def institutionalWeight (subcat : String) : Nat :=
  if subcat = "court_manipulation" then 5
  else if subcat = "professional_credibility" then 2
  else if subcat = "systemic_bias_indicators" then 3
  else 0

/-- All keywords of a category flattened across its subcategories, as in the
generator expressions `for subcat in DARVO_INDICATORS[...].values() for kw in
subcat`. -/
def categoryKeywords (cat : List (String × List String)) : List String :=
  (cat.map Prod.snd).flatten

/-! ### Messages and per-category detectors (`darvo_analyzer.py`) -/

/-- One communication unit; `timestamp` is a nullable day number. -/
structure Message where
  text : String
  sender : String
  platform : String
  timestamp : Option Int
deriving DecidableEq, Repr

/-- Python `text[:200]` on the character level. -/
def strTake200 (s : String) : String := ⟨s.data.take 200⟩

/-- One recorded hit (the instance dictionaries appended by the
`_detect_*_patterns` methods); `high_risk` is the extra flag that only
child-focused instances carry. -/
structure MatchInstance where
  keyword : String
  text : String
  sender : String
  timestamp : Option Int
  severity : Nat
  high_risk : Bool
deriving DecidableEq, Repr

/-- Result for one subcategory: its hit count and recorded instances. -/
structure SubcatResult where
  count : Nat
  instances : List MatchInstance
deriving DecidableEq, Repr

/-- First keyword of the list matching the text — the inner keyword loop with
its `break  # Count each message once per subcategory`. -/
def firstMatch (kws : List String) (text : String) : Option String :=
  kws.find? fun kw => hasKeyword kw text

/-- Builds the instance dictionary recorded for a hit. -/
def mkInstanceOf (m : Message) (kw : String) (sev : Nat) (hr : Bool) : MatchInstance :=
  { keyword := kw, text := strTake200 m.text, sender := m.sender,
    timestamp := m.timestamp, severity := sev, high_risk := hr }

/-- Common shape of the five `_detect_*_patterns` methods: for every
subcategory, every message contributes at most one instance — the one for its
first matching keyword. -/
def detectPatternsFor (cat : List (String × List String)) (w : String → Nat)
    (hr : Bool) (msgs : List Message) : List (String × SubcatResult) :=
  cat.map fun sc =>
    let insts := msgs.filterMap fun m =>
      (firstMatch sc.2 m.text).map fun kw => mkInstanceOf m kw (w sc.1) hr
    (sc.1, { count := insts.length, instances := insts })

/-- `DARVOAnalyzer._detect_deny_patterns`. -/
def detectDenyPatterns (msgs : List Message) : List (String × SubcatResult) :=
  detectPatternsFor denyIndicators denyWeight false msgs

/-- `DARVOAnalyzer._detect_attack_patterns`. -/
def detectAttackPatterns (msgs : List Message) : List (String × SubcatResult) :=
  detectPatternsFor attackIndicators attackWeight false msgs

/-- `DARVOAnalyzer._detect_reverse_patterns`. -/
def detectReversePatterns (msgs : List Message) : List (String × SubcatResult) :=
  detectPatternsFor reverseIndicators reverseWeight false msgs

/-- `DARVOAnalyzer._detect_institutional_patterns`. -/
def detectInstitutionalPatterns (msgs : List Message) : List (String × SubcatResult) :=
  detectPatternsFor institutionalIndicators institutionalWeight false msgs

/-- `DARVOAnalyzer._detect_child_focused_patterns` (severity always 5,
`high_risk` always set). -/
def detectChildFocusedPatterns (msgs : List Message) : List (String × SubcatResult) :=
  detectPatternsFor childFocusedIndicators (fun _ => 5) true msgs

/-! ### Role classification and compound sequences -/

/-- The three DARVO roles a message can be classified with in
`_detect_compound_patterns`. -/
inductive Role where
  | deny
  | attack
  | reverse
deriving DecidableEq, Repr

/-- Whether the message text matches any Deny keyword. -/
def hasDenyRole (m : Message) : Bool := anyKeyword (categoryKeywords denyIndicators) m.text

/-- Whether the message text matches any Attack keyword. -/
def hasAttackRole (m : Message) : Bool := anyKeyword (categoryKeywords attackIndicators) m.text

/-- Whether the message text matches any Reverse keyword. -/
def hasReverseRole (m : Message) : Bool := anyKeyword (categoryKeywords reverseIndicators) m.text

/-- Whether the message text matches any child-focused keyword. -/
def hasChildRole (m : Message) : Bool := anyKeyword (categoryKeywords childFocusedIndicators) m.text

/-- The `classifications` list built per message in
`_detect_compound_patterns` (order deny, attack, reverse). -/
def classifyMessage (m : Message) : List Role :=
  (if hasDenyRole m then [Role.deny] else []) ++
    (if hasAttackRole m then [Role.attack] else []) ++
      (if hasReverseRole m then [Role.reverse] else [])

/-- One entry of `DARVO_COMPOUND_PATTERNS`. -/
structure PatternDef where
  name : String
  description : String
  pattern : List Role
  window_messages : Nat
deriving DecidableEq, Repr

/-- `DARVO_COMPOUND_PATTERNS` in dictionary order. -/
def darvoCompoundPatterns : List PatternDef :=
  [{ name := "deny_then_attack",
     description := "Denying wrongdoing immediately followed by attacking the accuser",
     pattern := [Role.deny, Role.attack], window_messages := 3 },
   { name := "attack_then_reverse",
     description := "Attacking credibility then claiming to be the victim",
     pattern := [Role.attack, Role.reverse], window_messages := 5 },
   { name := "full_darvo_sequence",
     description := "Complete DARVO sequence: deny, attack, then reverse",
     pattern := [Role.deny, Role.attack, Role.reverse], window_messages := 10 }]

/-- The pointer walk of `_check_pattern_in_window`: fold over the window,
consuming the next required role whenever the current message's
classification list contains it (at most one advance per message). -/
def consumePattern (window : List (List Role)) (pat : List Role) : List Role :=
  window.foldl
    (fun rem roles =>
      match rem with
      | [] => []
      | r :: rest => if r ∈ roles then rest else r :: rest)
    pat

/-- `DARVOAnalyzer._check_pattern_in_window`: the walk consumed the whole
required role list. -/
def checkPatternInWindow (window : List (List Role)) (pat : List Role) : Bool :=
  (consumePattern window pat).isEmpty

/-- The scan of `_detect_compound_patterns` over starting offsets: for each
pattern, offsets `0 .. len - len(pattern)` (Python
`range(len(classifications) - len(target_pattern) + 1)`), window = the slice
of `window_messages` classifications from the offset, truncated at the end of
the list.  Returns the matching (pattern, offset) pairs in scan order; no
matches are possible with fewer than two messages. -/
def compoundHits (classif : List (List Role)) : List (PatternDef × Nat) :=
  if classif.length < 2 then []
  else
    darvoCompoundPatterns.flatMap fun pd =>
      ((List.range (classif.length + 1 - pd.pattern.length)).filter fun i =>
        checkPatternInWindow ((classif.drop i).take pd.window_messages) pd.pattern).map
        fun i => (pd, i)

/-- A detected compound pattern, as appended by `_detect_compound_patterns`. -/
structure CompoundMatch where
  pattern_type : String
  description : String
  messages : List Message
  severity : Nat
  start_time : Option Int
  end_time : Option Int
deriving DecidableEq, Repr

/-- Timestamp of the first message of a window (`window[0]`). -/
def windowHeadTime : List Message → Option Int
  | [] => none
  | m :: _ => m.timestamp

/-- `DARVOAnalyzer._detect_compound_patterns`. -/
def detectCompoundPatterns (msgs : List Message) : List CompoundMatch :=
  (compoundHits (msgs.map classifyMessage)).map fun pc =>
    let window := (msgs.drop pc.2).take pc.1.window_messages
    { pattern_type := pc.1.name
      description := pc.1.description
      messages := window.filter fun m => !(classifyMessage m).isEmpty
      severity := pc.1.pattern.length * 2
      start_time := windowHeadTime window
      end_time := window.getLast?.bind fun m => m.timestamp }

/-! ### Severity (`_calculate_severity`) -/

/-- Per-message score of one category: each subcategory contributes its
weight once when any of its keywords matches (the `break` after the first
matching keyword). -/
def msgCategoryScore (cat : List (String × List String)) (w : String → Nat)
    (text : String) : Nat :=
  (cat.map fun sc => if anyKeyword sc.2 text then w sc.1 else 0).sum

/-- `severity_assessment` dictionary; `category_scores` keeps the insertion
order of the Python dict. -/
structure SeverityAssessment where
  total_score : Nat
  category_scores : List (String × Nat)
  risk_level : String
  interpretation : String
deriving DecidableEq, Repr

/-- `DARVOAnalyzer._interpret_severity`. -/
def interpretSeverity (risk : String) (score : Nat) : String :=
  if risk = "low" then
    "Low-level DARVO indicators detected (score: " ++ toString score ++
      "). Some manipulation tactics present but not systematic."
  else if risk = "medium" then
    "Moderate DARVO pattern presence (score: " ++ toString score ++
      "). Multiple manipulation tactics detected across categories."
  else if risk = "high" then
    "Significant DARVO tactics identified (score: " ++ toString score ++
      "). Systematic pattern of deny, attack, and reversal behaviors."
  else if risk = "critical" then
    "Critical DARVO pattern severity (score: " ++ toString score ++
      "). Extensive manipulation tactics including high-risk child-focused patterns."
  else "Unable to determine severity."

/-- The risk-level assignment of `_calculate_severity`: the threshold ladder
on the total score, then the unconditional override to critical on any
child-focused hit. -/
def riskLevelOf (total childScore : Nat) : String :=
  let baseRisk :=
    if total > 50 then "critical"
    else if total > 30 then "high"
    else if total > 15 then "medium"
    else "low"
  if childScore > 0 then "critical" else baseRisk

/-- `DARVOAnalyzer._calculate_severity`: category subtotals summed over the
messages, the risk ladder on the total, and the unconditional override to
critical when the child-focused subtotal is positive. -/
def calcSeverity (msgs : List Message) : SeverityAssessment :=
  let denyScore := (msgs.map fun m => msgCategoryScore denyIndicators denyWeight m.text).sum
  let attackScore := (msgs.map fun m => msgCategoryScore attackIndicators attackWeight m.text).sum
  let reverseScore := (msgs.map fun m => msgCategoryScore reverseIndicators reverseWeight m.text).sum
  let instScore := (msgs.map fun m => msgCategoryScore institutionalIndicators institutionalWeight m.text).sum
  let childScore := (msgs.map fun m => msgCategoryScore childFocusedIndicators (fun _ => 5) m.text).sum
  let total := denyScore + attackScore + reverseScore + instScore + childScore
  let risk := riskLevelOf total childScore
  { total_score := total
    category_scores :=
      [("deny", denyScore), ("attack", attackScore), ("reverse", reverseScore),
       ("institutional", instScore), ("child_focused", childScore)]
    risk_level := risk
    interpretation := interpretSeverity risk total }

/-! ### Timeline (`_analyze_timeline`)

Timestamps are day numbers since 1970-01-01 (a Thursday), so Python's
`date.weekday()` (Monday = 0) is `(d + 3) % 7` and the weekly bucket key
`timestamp - timedelta(days=timestamp.weekday())` is the Monday of the
message's calendar week.  Sorting the `%Y-%m-%d` key strings orders them
chronologically, i.e. numerically. -/

/-- Per-window counters (the `defaultdict` payload; `total_score` is
initialised and never incremented in the source). -/
structure WindowCounts where
  deny_count : Nat
  attack_count : Nat
  reverse_count : Nat
  total_score : Nat
deriving DecidableEq, Repr

/-- The defaultdict's initial payload. -/
def emptyWindowCounts : WindowCounts := ⟨0, 0, 0, 0⟩

/-- Monday of the calendar week of day `t`: `t - weekday(t)`. -/
def weekStart (t : Int) : Int := t - (t + 3) % 7

/-- defaultdict update: modify the entry of key `k` if present, else append
`k` with the modified default (Python dict insertion order). -/
def bumpWindow (l : List (Int × WindowCounts)) (k : Int)
    (f : WindowCounts → WindowCounts) : List (Int × WindowCounts) :=
  if l.any fun p => p.1 == k then
    l.map fun p => if p.1 == k then (p.1, f p.2) else p
  else l ++ [(k, f emptyWindowCounts)]

/-- Processing of one message in the window-building loop of
`_analyze_timeline`: untimestamped messages are skipped (`continue`), a
timestamped one increments the per-role counters of its week on a role hit. -/
def timelineStep (l : List (Int × WindowCounts)) (m : Message) :
    List (Int × WindowCounts) :=
  match m.timestamp with
  | none => l
  | some t =>
    let k := weekStart t
    let l1 := if hasDenyRole m then
        bumpWindow l k (fun c => { c with deny_count := c.deny_count + 1 }) else l
    let l2 := if hasAttackRole m then
        bumpWindow l1 k (fun c => { c with attack_count := c.attack_count + 1 }) else l1
    if hasReverseRole m then
      bumpWindow l2 k (fun c => { c with reverse_count := c.reverse_count + 1 }) else l2

/-- Role-hit total of one window (`deny_count + attack_count + reverse_count`). -/
def windowTotal (c : WindowCounts) : Nat := c.deny_count + c.attack_count + c.reverse_count

/-- Window of a given week key (the defaultdict read in the escalation
check). -/
def lookupWindow (l : List (Int × WindowCounts)) (k : Int) : WindowCounts :=
  match l.find? fun p => p.1 == k with
  | some p => p.2
  | none => emptyWindowCounts

/-- Insert into a sorted list of week keys. -/
def insertSorted (x : Int) : List Int → List Int
  | [] => [x]
  | y :: ys => if x ≤ y then x :: y :: ys else y :: insertSorted x ys

/-- Python `sorted(...)` on week keys (insertion sort; the keys are
distinct, so any correct sort agrees with Timsort). -/
def sortInts (l : List Int) : List Int := l.foldr insertSorted []

/-- `timeline_analysis` result: either the bare
`{"timeline_available": False}` dictionary or the populated one. -/
inductive TimelineAnalysis where
  | unavailable
  | available (time_windows : List (Int × WindowCounts)) (escalation_detected : Bool)
      (total_weeks : Nat)
deriving DecidableEq, Repr

/-- The `timeline_available` field. -/
def TimelineAnalysis.isAvailable : TimelineAnalysis → Bool
  | .unavailable => false
  | .available _ _ _ => true

/-- `DARVOAnalyzer._analyze_timeline`.  Escalation compares the first and the
last week in sorted key order: `late_total > early_total * 1.5` over exact
arithmetic, i.e. `2 * late_total > 3 * early_total`. -/
def analyzeTimeline (msgs : List Message) : TimelineAnalysis :=
  if msgs.isEmpty || !(msgs.any fun m => m.timestamp.isSome) then .unavailable
  else
    let tw := msgs.foldl timelineStep []
    let sortedKeys := sortInts (tw.map Prod.fst)
    let esc :=
      if 2 ≤ sortedKeys.length then
        let earlyTotal := windowTotal (lookupWindow tw (sortedKeys.headD 0))
        let lateTotal := windowTotal (lookupWindow tw (sortedKeys.getLastD 0))
        decide (3 * earlyTotal < 2 * lateTotal)
      else false
    .available tw esc sortedKeys.length

/-! ### Forensic summary and the full analysis -/

/-- The `darvo_components_present` sub-dictionary. -/
structure ComponentsPresent where
  deny : Bool
  attack : Bool
  reverse : Bool
deriving DecidableEq, Repr

/-- The `instance_counts` sub-dictionary (distinct messages per role). -/
structure InstanceCounts where
  deny_instances : Nat
  attack_instances : Nat
  reverse_instances : Nat
  child_focused_instances : Nat
deriving DecidableEq, Repr

/-- The forensic summary; `analysis_date` is the wall-clock reading
(`datetime.now().isoformat()`), modelled by the explicit `now` input. -/
structure ForensicSummary where
  analysis_date : Int
  total_messages_analyzed : Nat
  darvo_components_present : ComponentsPresent
  full_darvo_pattern_detected : Bool
  instance_counts : InstanceCounts
  high_risk_indicators : Bool
  recommended_actions : List String
deriving DecidableEq, Repr

/-- `DARVOAnalyzer._generate_recommendations`. -/
def generateRecommendations (fullPattern childRisk : Bool) : List String :=
  let r :=
    (if fullPattern then
      ["Document all communications for legal proceedings",
       "Consider consultation with domestic violence advocate"]
     else []) ++
    (if childRisk then
      ["URGENT: Child-focused manipulation detected - consider immediate protective measures",
       "Document all child-related statements for custody proceedings",
       "Consult with family law attorney regarding parental alienation concerns"]
     else [])
  if r.isEmpty then ["Continue monitoring communications for patterns"] else r

/-- `DARVOAnalyzer._generate_forensic_summary`: the per-role sets of message
indices become counts of messages satisfying each role predicate. -/
def forensicSummary (now : Int) (msgs : List Message) : ForensicSummary :=
  let totalDeny := msgs.countP hasDenyRole
  let totalAttack := msgs.countP hasAttackRole
  let totalReverse := msgs.countP hasReverseRole
  let totalChild := msgs.countP hasChildRole
  let fullPattern := decide (0 < totalDeny) && decide (0 < totalAttack) && decide (0 < totalReverse)
  { analysis_date := now
    total_messages_analyzed := msgs.length
    darvo_components_present :=
      ⟨decide (0 < totalDeny), decide (0 < totalAttack), decide (0 < totalReverse)⟩
    full_darvo_pattern_detected := fullPattern
    instance_counts := ⟨totalDeny, totalAttack, totalReverse, totalChild⟩
    high_risk_indicators := decide (0 < totalChild)
    recommended_actions := generateRecommendations fullPattern (decide (0 < totalChild)) }

/-- The merged analysis result dictionary. -/
structure AnalysisResults where
  deny_patterns : List (String × SubcatResult)
  attack_patterns : List (String × SubcatResult)
  reverse_patterns : List (String × SubcatResult)
  institutional_patterns : List (String × SubcatResult)
  child_focused_patterns : List (String × SubcatResult)
  compound_patterns : List CompoundMatch
  severity_assessment : SeverityAssessment
  timeline_analysis : TimelineAnalysis
  forensic_summary : ForensicSummary
deriving DecidableEq, Repr

/-- `DARVOAnalyzer._analyze_conversation`. -/
def analyzeConversation (now : Int) (msgs : List Message) : AnalysisResults :=
  { deny_patterns := detectDenyPatterns msgs
    attack_patterns := detectAttackPatterns msgs
    reverse_patterns := detectReversePatterns msgs
    institutional_patterns := detectInstitutionalPatterns msgs
    child_focused_patterns := detectChildFocusedPatterns msgs
    compound_patterns := detectCompoundPatterns msgs
    severity_assessment := calcSeverity msgs
    timeline_analysis := analyzeTimeline msgs
    forensic_summary := forensicSummary now msgs }

/-- The hard-coded zero-valued structure returned for empty input (note its
empty dictionaries and empty recommendation list). -/
def emptyResults (now : Int) : AnalysisResults :=
  { deny_patterns := []
    attack_patterns := []
    reverse_patterns := []
    institutional_patterns := []
    child_focused_patterns := []
    compound_patterns := []
    severity_assessment :=
      { total_score := 0, category_scores := [], risk_level := "low",
        interpretation := "No data available for analysis." }
    timeline_analysis := .unavailable
    forensic_summary :=
      { analysis_date := now, total_messages_analyzed := 0,
        darvo_components_present := ⟨false, false, false⟩,
        full_darvo_pattern_detected := false,
        instance_counts := ⟨0, 0, 0, 0⟩,
        high_risk_indicators := false,
        recommended_actions := [] } }

/-- The single message `_analyze_document` wraps the text into (its timestamp
is `datetime.now()`). -/
def documentMessage (now : Int) (text : String) : Message :=
  { text := text, sender := "Document", platform := "document", timestamp := some now }

/-- `DARVOAnalyzer.analyze_darvo_patterns`: conversation mode when the
message list is non-empty, document mode when the text is non-empty, and the
zero-valued structure otherwise. -/
def analyzeDarvoPatterns (now : Int) (msgs : List Message) (docText : String) :
    AnalysisResults :=
  if !msgs.isEmpty then analyzeConversation now msgs
  else if docText ≠ "" then analyzeConversation now [documentMessage now docText]
  else emptyResults now

/-! ### Specification-side notions and supporting lemmas -/

theorem ratioGE85_iff_ratioOf (a b : List Char) :
    ratioGE85 a b = true ↔ (0.85 : ℚ) ≤ ratioOf a b := by
  unfold ratioGE85 ratioOf
  rw [decide_eq_true_iff]
  by_cases h : a.length + b.length = 0
  · rw [if_pos h, h]
    norm_num
  · rw [if_neg h]
    have hT : (0 : ℚ) < ((a.length + b.length : Nat) : ℚ) :=
      Nat.cast_pos.mpr (Nat.pos_of_ne_zero h)
    rw [le_div_iff hT, show (0.85 : ℚ) = 17 / 20 by norm_num, div_mul_eq_mul_div,
      div_le_iff (by norm_num : (0 : ℚ) < 20)]
    constructor
    · intro hh
      have hq : ((17 * (a.length + b.length) : Nat) : ℚ) ≤ ((40 * matchTotal a b : Nat) : ℚ) :=
        Nat.cast_le.mpr hh
      push_cast at hq ⊢
      linarith
    · intro hh
      rw [← Nat.cast_le (α := ℚ)]
      push_cast at hh ⊢
      linarith

/-- The spec's reading of the compound-pattern walk: the required roles appear
in order within the window, at most one per message, with intervening
role-free or other-role messages allowed. -/
inductive AppearsInOrder : List (List Role) → List Role → Prop
  | nil (w : List (List Role)) : AppearsInOrder w []
  | here {c : List Role} {w : List (List Role)} {r : Role} {p : List Role} :
      r ∈ c → AppearsInOrder w p → AppearsInOrder (c :: w) (r :: p)
  | skip {c : List Role} {w : List (List Role)} {p : List Role} :
      AppearsInOrder w p → AppearsInOrder (c :: w) p

theorem AppearsInOrder.of_cons {w : List (List Role)} {q : List Role}
    (h : AppearsInOrder w q) : ∀ {r : Role} {p : List Role}, q = r :: p → AppearsInOrder w p := by
  induction h with
  | nil w => intro r p hq; cases hq
  | here hr hp ih =>
    intro r' p' hq
    injection hq with hq1 hq2
    subst hq1; subst hq2
    exact AppearsInOrder.skip hp
  | skip hp ih =>
    intro r' p' hq
    exact AppearsInOrder.skip (ih hq)

theorem consumePattern_nil_pat : ∀ w : List (List Role), consumePattern w [] = [] := by
  intro w
  induction w with
  | nil => rfl
  | cons c w ih => simpa [consumePattern, List.foldl_cons] using ih

theorem consumePattern_cons (c : List Role) (w : List (List Role)) (r : Role) (p : List Role) :
    consumePattern (c :: w) (r :: p) =
      if r ∈ c then consumePattern w p else consumePattern w (r :: p) := by
  by_cases h : r ∈ c <;> simp [consumePattern, List.foldl_cons, h]

theorem checkPatternInWindow_iff_appears :
    ∀ (w : List (List Role)) (pat : List Role),
      checkPatternInWindow w pat = true ↔ AppearsInOrder w pat := by
  intro w
  induction w with
  | nil =>
    intro pat
    unfold checkPatternInWindow
    cases pat with
    | nil => simp [consumePattern]; exact AppearsInOrder.nil []
    | cons r p =>
      simp [consumePattern]
      intro h
      cases h
  | cons c w ih =>
    intro pat
    cases pat with
    | nil =>
      unfold checkPatternInWindow
      rw [consumePattern_nil_pat]
      simp
      exact AppearsInOrder.nil _
    | cons r p =>
      unfold checkPatternInWindow at ih ⊢
      rw [consumePattern_cons]
      by_cases h : r ∈ c
      · rw [if_pos h]
        rw [ih p]
        constructor
        · intro hp; exact AppearsInOrder.here h hp
        · intro hp
          cases hp with
          | here hr hp' => exact hp'
          | skip hp' => exact hp'.of_cons rfl
      · rw [if_neg h]
        rw [ih (r :: p)]
        constructor
        · intro hp; exact AppearsInOrder.skip hp
        · intro hp
          cases hp with
          | here hr hp' => exact absurd hr h
          | skip hp' => exact hp'

theorem compoundHits_mem_iff (classif : List (List Role)) (pd : PatternDef) (i : Nat) :
    (pd, i) ∈ compoundHits classif ↔
      2 ≤ classif.length ∧ pd ∈ darvoCompoundPatterns ∧
        i + pd.pattern.length ≤ classif.length ∧
        AppearsInOrder ((classif.drop i).take pd.window_messages) pd.pattern := by
  unfold compoundHits
  by_cases h2 : classif.length < 2
  · rw [if_pos h2]
    simp
    intro h
    omega
  · rw [if_neg h2]
    rw [List.mem_flatMap]
    constructor
    · rintro ⟨pd', hpd', hmem⟩
      rcases List.mem_map.mp hmem with ⟨i', hi', hpe⟩
      injection hpe with he1 he2
      subst he1; subst he2
      rcases List.mem_filter.mp hi' with ⟨hir, hcheck⟩
      have hilt := List.mem_range.mp hir
      exact ⟨by omega, hpd', by omega,
        (checkPatternInWindow_iff_appears _ _).mp hcheck⟩
    · rintro ⟨hlen, hpd, hle, happ⟩
      refine ⟨pd, hpd, List.mem_map.mpr ⟨i, List.mem_filter.mpr ⟨List.mem_range.mpr ?_, ?_⟩, rfl⟩⟩
      · omega
      · exact (checkPatternInWindow_iff_appears _ _).mpr happ

theorem find?_first_decomp {p : String → Bool} :
    ∀ (l : List String) (kw : String), l.find? p = some kw →
      p kw = true ∧ ∃ pre post, l = pre ++ kw :: post ∧ ∀ k ∈ pre, p k = false := by
  intro l
  induction l with
  | nil => intro kw h; cases h
  | cons a as ih =>
    intro kw h
    by_cases hpa : p a = true
    · rw [List.find?_cons_of_pos _ hpa] at h
      injection h with h1
      subst h1
      exact ⟨hpa, [], as, rfl, by intro k hk; cases hk⟩
    · rw [List.find?_cons_of_neg _ hpa] at h
      obtain ⟨hkw, pre, post, heq, hpre⟩ := ih kw h
      refine ⟨hkw, a :: pre, post, by rw [heq]; rfl, ?_⟩
      intro k hk
      rcases List.mem_cons.mp hk with hk | hk
      · subst hk; exact Bool.not_eq_true _ ▸ Bool.eq_false_iff.mpr hpa
      · exact hpre k hk

theorem length_filterMap_firstMatch (kws : List String) (g : Message → String → MatchInstance)
    (msgs : List Message) :
    (msgs.filterMap fun m => (firstMatch kws m.text).map (g m)).length =
      msgs.countP fun m => kws.any fun kw => hasKeyword kw m.text := by
  induction msgs with
  | nil => rfl
  | cons m rest ih =>
    rw [List.countP_cons]
    cases hfm : firstMatch kws m.text with
    | none =>
      have hfm' : kws.find? (fun kw => hasKeyword kw m.text) = none := hfm
      have hany : (kws.any fun kw => hasKeyword kw m.text) = false := by
        rw [List.any_eq_false]
        intro kw hkw
        exact List.find?_eq_none.mp hfm' kw hkw
      simp [List.filterMap_cons, hfm, hany, ih]
    | some kw =>
      have hfm' : kws.find? (fun kw => hasKeyword kw m.text) = some kw := hfm
      have hmem : kw ∈ kws := List.mem_of_find?_eq_some hfm'
      have hp : hasKeyword kw m.text = true :=
        @List.find?_some String (fun kw => hasKeyword kw m.text) kw kws hfm'
      have hany : (kws.any fun kw => hasKeyword kw m.text) = true :=
        List.any_eq_true.mpr ⟨kw, hmem, hp⟩
      simp [List.filterMap_cons, hfm, hany, ih]

theorem msgCategoryScore_le (cat : List (String × List String)) (w : String → Nat)
    (text : String) : msgCategoryScore cat w text ≤ (cat.map fun sc => w sc.1).sum := by
  unfold msgCategoryScore
  apply List.sum_le_sum
  intro sc hsc
  split
  · exact le_rfl
  · exact Nat.zero_le _

/-! Timeline key lemmas: the defaultdict only grows, and a role hit of a
timestamped message makes its calendar-week key present. -/

theorem bumpWindow_keys (l : List (Int × WindowCounts)) (k : Int)
    (f : WindowCounts → WindowCounts) :
    (bumpWindow l k f).map Prod.fst = l.map Prod.fst ∨
      (bumpWindow l k f).map Prod.fst = l.map Prod.fst ++ [k] := by
  unfold bumpWindow
  by_cases h : (l.any fun p => p.1 == k) = true
  · rw [if_pos h]
    left
    rw [List.map_map]
    apply List.map_congr_left
    intro p hp
    by_cases hpk : (p.1 == k) = true <;> simp [Function.comp, hpk]
  · rw [if_neg h]
    right
    simp

theorem bumpWindow_keys_subset (l : List (Int × WindowCounts)) (k k' : Int)
    (f : WindowCounts → WindowCounts) (h : k' ∈ l.map Prod.fst) :
    k' ∈ (bumpWindow l k f).map Prod.fst := by
  rcases bumpWindow_keys l k f with he | he
  · rw [he]; exact h
  · rw [he]; exact List.mem_append_left _ h

theorem bumpWindow_key_mem (l : List (Int × WindowCounts)) (k : Int)
    (f : WindowCounts → WindowCounts) : k ∈ (bumpWindow l k f).map Prod.fst := by
  unfold bumpWindow
  by_cases h : (l.any fun p => p.1 == k) = true
  · rw [if_pos h]
    rcases List.any_eq_true.mp h with ⟨p, hp, hpk⟩
    have hk : p.1 = k := eq_of_beq hpk
    rw [List.map_map]
    refine List.mem_map.mpr ⟨p, hp, ?_⟩
    simp [Function.comp, hpk, hk]
  · rw [if_neg h]
    simp

theorem timelineStep_none (l : List (Int × WindowCounts)) (m : Message)
    (h : m.timestamp = none) : timelineStep l m = l := by
  unfold timelineStep
  rw [h]

theorem timelineStep_keys_subset (l : List (Int × WindowCounts)) (m : Message) (k' : Int)
    (h : k' ∈ l.map Prod.fst) : k' ∈ (timelineStep l m).map Prod.fst := by
  cases ht : m.timestamp with
  | none => rw [timelineStep_none l m ht]; exact h
  | some t =>
    simp only [timelineStep, ht]
    split_ifs <;>
      (repeat first
        | exact h
        | apply bumpWindow_keys_subset)

theorem timelineStep_key_mem (l : List (Int × WindowCounts)) (m : Message) (t : Int)
    (ht : m.timestamp = some t)
    (hrole : hasDenyRole m = true ∨ hasAttackRole m = true ∨ hasReverseRole m = true) :
    weekStart t ∈ (timelineStep l m).map Prod.fst := by
  simp only [timelineStep, ht]
  split_ifs with h1 h2 h3 <;>
    first
      | exact bumpWindow_key_mem _ _ _
      | (exfalso; rcases hrole with h | h | h <;> simp_all)

theorem foldl_timelineStep_keys_subset (msgs : List Message) :
    ∀ (l : List (Int × WindowCounts)) (k' : Int), k' ∈ l.map Prod.fst →
      k' ∈ (msgs.foldl timelineStep l).map Prod.fst := by
  induction msgs with
  | nil => intro l k' h; exact h
  | cons m rest ih =>
    intro l k' h
    rw [List.foldl_cons]
    exact ih _ _ (timelineStep_keys_subset l m k' h)

theorem foldl_timelineStep_key_mem (msgs : List Message) (m : Message) (t : Int)
    (hm : m ∈ msgs) (ht : m.timestamp = some t)
    (hrole : hasDenyRole m = true ∨ hasAttackRole m = true ∨ hasReverseRole m = true) :
    weekStart t ∈ (msgs.foldl timelineStep []).map Prod.fst := by
  obtain ⟨s, u, rfl⟩ := List.append_of_mem hm
  rw [List.foldl_append, List.foldl_cons]
  exact foldl_timelineStep_keys_subset u _ _
    (timelineStep_key_mem (s.foldl timelineStep []) m t ht hrole)

theorem analyzeTimeline_available (msgs : List Message) (h1 : msgs ≠ [])
    (h2 : (msgs.any fun m => m.timestamp.isSome) = true) :
    ∃ esc n, analyzeTimeline msgs = .available (msgs.foldl timelineStep []) esc n := by
  have hc : (msgs.isEmpty || !(msgs.any fun m => m.timestamp.isSome)) = false := by
    rw [h2]
    simp [List.isEmpty_iff, h1]
  unfold analyzeTimeline
  rw [hc]
  exact ⟨_, _, rfl⟩

theorem foldl_timelineStep_filter (msgs : List Message) :
    ∀ l : List (Int × WindowCounts),
      (msgs.filter fun m => m.timestamp.isSome).foldl timelineStep l =
        msgs.foldl timelineStep l := by
  induction msgs with
  | nil => intro l; rfl
  | cons m rest ih =>
    intro l
    cases ht : m.timestamp with
    | none =>
      rw [List.filter_cons]
      simp only [ht, Option.isSome_none, Bool.false_eq_true, if_false, List.foldl_cons]
      rw [timelineStep_none l m ht]
      exact ih l
    | some t =>
      rw [List.filter_cons]
      simp only [ht, Option.isSome_some, if_true, List.foldl_cons]
      exact ih _

theorem calcSeverity_text_only (msgs : List Message) :
    calcSeverity (msgs.map fun m => { m with timestamp := none }) = calcSeverity msgs := by
  unfold calcSeverity
  simp only [List.map_map]
  rfl

theorem riskLevelOf_ladder (total c : Nat) :
    (0 < c → riskLevelOf total c = "critical") ∧
    (c = 0 →
      (total ≤ 15 → riskLevelOf total c = "low") ∧
      (16 ≤ total → total ≤ 30 → riskLevelOf total c = "medium") ∧
      (31 ≤ total → total ≤ 50 → riskLevelOf total c = "high") ∧
      (50 < total → riskLevelOf total c = "critical")) := by
  unfold riskLevelOf
  constructor
  · intro hc
    rw [if_pos hc]
  · intro hc
    subst hc
    rw [if_neg (by omega : ¬ (0 : Nat) > 0)]
    refine ⟨?_, ?_, ?_, ?_⟩
    · intro h
      rw [if_neg (by omega), if_neg (by omega), if_neg (by omega)]
    · intro h1 h2
      rw [if_neg (by omega), if_neg (by omega), if_pos (by omega)]
    · intro h1 h2
      rw [if_neg (by omega), if_pos (by omega)]
    · intro h
      rw [if_pos (by omega)]

/-- The forensic summary's `analysis_date` replaced by a fixed value, to state
what is deterministic in the analysis. -/
def stripAnalysisDate (r : AnalysisResults) : AnalysisResults :=
  { r with forensic_summary := { r.forensic_summary with analysis_date := 0 } }

/-- An untimestamped message with the given text. -/
def exMsg (t : String) : Message :=
  { text := t, sender := "Alex", platform := "chat", timestamp := none }

/-- A message with the given text and day-number timestamp. -/
def exTimed (t : String) (d : Int) : Message :=
  { text := t, sender := "Alex", platform := "chat", timestamp := some d }

/-! ### The claims -/

/-- C1 counterexample: the fuzzy matcher does not implement the sliding-window
rule the claim states.  The text "the custudy of" contains the keyword
"custody" with a single-character typo, and the 7-character window "custudy"
has ratio 12/14 ≥ 0.85, so the claimed matcher reports a hit — but the
source's `fuzzy_match` compares the whole text against the keyword
(ratio 12/21 < 0.85) and reports none. -/
theorem fuzzy_window_counterexample :
    fuzzyMatchSpecWindowed "the custudy of" "custody" = true ∧
    fuzzyMatch "the custudy of" "custody" = false := by
  constructor <;> decide

/-- C1 (amended): the fuzzy matcher reports a hit exactly when the
SequenceMatcher ratio between the WHOLE lowercased text and the whole
lowercased keyword is at least 0.85 — no sliding windows.  In particular a
keyword with a single-character typo standing alone as the text is detected
(ratio 12/14), and a text that merely contains the keyword is not (whole-text
ratio 14/21 < 0.85). -/
theorem fuzzy_whole_text_threshold :
    (∀ text keyword : String,
      fuzzyMatch text keyword = true ↔
        (0.85 : ℚ) ≤ ratioOf (lowerChars text) (lowerChars keyword)) ∧
    fuzzyMatch "custudy" "custody" = true ∧
    fuzzyMatch "the custody of" "custody" = false := by
  refine ⟨?_, by decide, by decide⟩
  intro t k
  exact ratioGE85_iff_ratioOf _ _

/-- C2: a compound pattern is reported at a window offset exactly when the
offset is one the scan examines (`0 .. len - len(pattern)`, with at least two
messages) and the pattern's roles appear in order within the window slice,
with intervening role-free or other-role messages allowed; for messages
classified deny, (no role), attack, reverse the `full_darvo_sequence`
pattern is detected, and for deny, reverse, attack it is not. -/
theorem compound_ordered_subsequence :
    (∀ (classif : List (List Role)) (pd : PatternDef) (i : Nat),
      ((pd, i) ∈ compoundHits classif ↔
        2 ≤ classif.length ∧ pd ∈ darvoCompoundPatterns ∧
          i + pd.pattern.length ≤ classif.length ∧
          AppearsInOrder ((classif.drop i).take pd.window_messages) pd.pattern)) ∧
    ((detectCompoundPatterns
      [exMsg "prove it", exMsg "hello there", exMsg "seek therapy", exMsg "what about me"]).any
        fun c => c.pattern_type == "full_darvo_sequence") = true ∧
    ((detectCompoundPatterns
      [exMsg "prove it", exMsg "what about me", exMsg "seek therapy"]).any
        fun c => c.pattern_type == "full_darvo_sequence") = false := by
  refine ⟨compoundHits_mem_iff, by decide, by decide⟩

/-- C3 counterexample: "custody" is an Attack keyword
(`threat_of_consequences`), not a child-focused one, so the single message
"custody" scores 5 in the attack category, 0 in the child-focused category,
and its risk level is "low", not "critical" as the claim's example asserts. -/
theorem custody_not_child_focused_counterexample :
    hasKeyword "custody" (exMsg "custody").text = true ∧
    (calcSeverity [exMsg "custody"]).total_score = 5 ∧
    ((calcSeverity [exMsg "custody"]).category_scores.lookup "child_focused").getD 0 = 0 ∧
    (calcSeverity [exMsg "custody"]).risk_level = "low" := by
  refine ⟨by decide, by decide, by decide, by decide⟩

/-- C3 (amended): risk_level follows the ladder `<=15` low, 16-30 medium,
31-50 high, `>50` critical on the total score, overridden to critical
whenever the child-focused subtotal is positive; in particular a single
message matching a child-focused keyword such as "parental alienation"
yields critical even with total score below 51. -/
theorem risk_ladder_child_override :
    (∀ msgs : List Message,
      (0 < ((calcSeverity msgs).category_scores.lookup "child_focused").getD 0 →
        (calcSeverity msgs).risk_level = "critical") ∧
      (((calcSeverity msgs).category_scores.lookup "child_focused").getD 0 = 0 →
        ((calcSeverity msgs).total_score ≤ 15 → (calcSeverity msgs).risk_level = "low") ∧
        (16 ≤ (calcSeverity msgs).total_score → (calcSeverity msgs).total_score ≤ 30 →
          (calcSeverity msgs).risk_level = "medium") ∧
        (31 ≤ (calcSeverity msgs).total_score → (calcSeverity msgs).total_score ≤ 50 →
          (calcSeverity msgs).risk_level = "high") ∧
        (50 < (calcSeverity msgs).total_score → (calcSeverity msgs).risk_level = "critical"))) ∧
    (calcSeverity [exMsg "parental alienation"]).risk_level = "critical" ∧
    (calcSeverity [exMsg "parental alienation"]).total_score ≤ 50 := by
  refine ⟨?_, by decide, by decide⟩
  intro msgs
  exact riskLevelOf_ladder (calcSeverity msgs).total_score
    (((calcSeverity msgs).category_scores.lookup "child_focused").getD 0)

/-- C3 witness: a single message matching the child-focused keyword
"parental alienation" has a positive child-focused subtotal and so is rated
critical by the ladder's override. -/
theorem risk_ladder_child_override_witness :
    (calcSeverity [exMsg "parental alienation"]).risk_level = "critical" ∧
    0 < ((calcSeverity [exMsg "parental alienation"]).category_scores.lookup
      "child_focused").getD 0 :=
  ⟨(risk_ladder_child_override.1 [exMsg "parental alienation"]).1 (by decide), by decide⟩

/-- C4: `full_darvo_pattern_detected` holds exactly when the deny, attack and
reverse role-presence sets of messages are each non-empty; the instance
counts are distinct-message counts per role (a message matching two deny
keywords counts once); the flag is invariant under every permutation of the
message list; and it can be true while the ordered compound-sequence
detector reports zero matches (messages in order reverse, attack, deny). -/
theorem forensic_full_pattern_unordered (msgs msgs' : List Message) (hp : msgs.Perm msgs') :
    ((forensicSummary 0 msgs).full_darvo_pattern_detected = true ↔
      (∃ m ∈ msgs, hasDenyRole m = true) ∧ (∃ m ∈ msgs, hasAttackRole m = true) ∧
        (∃ m ∈ msgs, hasReverseRole m = true)) ∧
    (forensicSummary 0 msgs).instance_counts.deny_instances = msgs.countP hasDenyRole ∧
    (forensicSummary 0 msgs).instance_counts.attack_instances = msgs.countP hasAttackRole ∧
    (forensicSummary 0 msgs).instance_counts.reverse_instances = msgs.countP hasReverseRole ∧
    (forensicSummary 0 msgs).instance_counts.child_focused_instances = msgs.countP hasChildRole ∧
    (forensicSummary 0 msgs).full_darvo_pattern_detected =
      (forensicSummary 0 msgs').full_darvo_pattern_detected ∧
    ((forensicSummary 0
        [exMsg "what about me", exMsg "seek therapy", exMsg "prove it"]).full_darvo_pattern_detected
      = true ∧
      detectCompoundPatterns [exMsg "what about me", exMsg "seek therapy", exMsg "prove it"] = []) ∧
    (forensicSummary 0
        [exMsg "prove it those are complete lies"]).instance_counts.deny_instances = 1 := by
  refine ⟨?_, rfl, rfl, rfl, rfl, ?_, ⟨by decide, by decide⟩, by decide⟩
  · show (decide (0 < msgs.countP hasDenyRole) && decide (0 < msgs.countP hasAttackRole) &&
      decide (0 < msgs.countP hasReverseRole)) = true ↔ _
    simp [List.countP_pos_iff, and_assoc]
  · show (decide (0 < msgs.countP hasDenyRole) && decide (0 < msgs.countP hasAttackRole) &&
        decide (0 < msgs.countP hasReverseRole)) =
      (decide (0 < msgs'.countP hasDenyRole) && decide (0 < msgs'.countP hasAttackRole) &&
        decide (0 < msgs'.countP hasReverseRole))
    rw [hp.countP_eq hasDenyRole, hp.countP_eq hasAttackRole, hp.countP_eq hasReverseRole]

/-- C4 witness: the flag agrees between a two-message list and its
transposition. -/
theorem forensic_full_pattern_unordered_witness :
    (forensicSummary 0 [exMsg "prove it", exMsg "seek therapy"]).full_darvo_pattern_detected =
      (forensicSummary 0 [exMsg "seek therapy", exMsg "prove it"]).full_darvo_pattern_detected :=
  (forensic_full_pattern_unordered [exMsg "prove it", exMsg "seek therapy"]
    [exMsg "seek therapy", exMsg "prove it"] (by decide)).2.2.2.2.2.1

theorem sum_msgCategoryScore_le (msgs : List Message) (cat : List (String × List String))
    (w : String → Nat) (W : Nat) (hW : (cat.map fun sc => w sc.1).sum = W) :
    (msgs.map fun m => msgCategoryScore cat w m.text).sum ≤ W * msgs.length := by
  have hb : ∀ x ∈ msgs.map fun m => msgCategoryScore cat w m.text, x ≤ W := by
    intro x hx
    rcases List.mem_map.mp hx with ⟨m, hm, rfl⟩
    have h1 := msgCategoryScore_le cat w m.text
    omega
  have h3 := List.sum_le_card_nsmul (msgs.map fun m => msgCategoryScore cat w m.text) W hb
  simpa [smul_eq_mul, Nat.mul_comm] using h3

/-- C5: for every category of the lexicon and every one of its
subcategories, the detector records one instance per matching message (never
more, even when several keywords of the subcategory match), the recorded
keyword is the first matching keyword in lexicon order; all five detectors
are instances of the common shape, and every category's severity subtotal is
bounded by one weight-sum per message. -/
theorem subcategory_dedup_first_match :
    (∀ (msgs : List Message) (cat : List (String × List String)) (w : String → Nat)
      (hr : Bool) (sc : String × List String), sc ∈ cat →
      ∃ res : SubcatResult,
        (sc.1, res) ∈ detectPatternsFor cat w hr msgs ∧
        res.count = res.instances.length ∧
        res.instances.length = msgs.countP (fun m => sc.2.any fun kw => hasKeyword kw m.text) ∧
        (∀ inst ∈ res.instances, ∃ m ∈ msgs, ∃ pre post,
          inst = mkInstanceOf m inst.keyword (w sc.1) hr ∧
          hasKeyword inst.keyword m.text = true ∧
          sc.2 = pre ++ inst.keyword :: post ∧
          ∀ k ∈ pre, hasKeyword k m.text = false)) ∧
    (∀ msgs : List Message,
      ((calcSeverity msgs).category_scores.lookup "deny").getD 0 ≤ 6 * msgs.length ∧
      ((calcSeverity msgs).category_scores.lookup "attack").getD 0 ≤ 15 * msgs.length ∧
      ((calcSeverity msgs).category_scores.lookup "reverse").getD 0 ≤ 14 * msgs.length ∧
      ((calcSeverity msgs).category_scores.lookup "institutional").getD 0 ≤ 10 * msgs.length ∧
      ((calcSeverity msgs).category_scores.lookup "child_focused").getD 0 ≤ 15 * msgs.length) ∧
    detectDenyPatterns = detectPatternsFor denyIndicators denyWeight false ∧
    detectAttackPatterns = detectPatternsFor attackIndicators attackWeight false ∧
    detectReversePatterns = detectPatternsFor reverseIndicators reverseWeight false ∧
    detectInstitutionalPatterns = detectPatternsFor institutionalIndicators institutionalWeight false ∧
    detectChildFocusedPatterns = detectPatternsFor childFocusedIndicators (fun _ => 5) true := by
  refine ⟨?_, ?_, rfl, rfl, rfl, rfl, rfl⟩
  · intro msgs cat w hr sc hsc
    have hmem := List.mem_map_of_mem (fun sc : String × List String =>
      ((sc.1, ⟨(msgs.filterMap fun m =>
          (firstMatch sc.2 m.text).map fun kw => mkInstanceOf m kw (w sc.1) hr).length,
        msgs.filterMap fun m =>
          (firstMatch sc.2 m.text).map fun kw => mkInstanceOf m kw (w sc.1) hr⟩) :
        String × SubcatResult)) hsc
    refine ⟨⟨(msgs.filterMap fun m =>
        (firstMatch sc.2 m.text).map fun kw => mkInstanceOf m kw (w sc.1) hr).length,
      msgs.filterMap fun m =>
        (firstMatch sc.2 m.text).map fun kw => mkInstanceOf m kw (w sc.1) hr⟩,
      hmem, rfl,
      length_filterMap_firstMatch sc.2 (fun m kw => mkInstanceOf m kw (w sc.1) hr) msgs,
      ?_⟩
    intro inst hinst
    rcases List.mem_filterMap.mp hinst with ⟨m, hm, hopt⟩
    cases hf : firstMatch sc.2 m.text with
    | none => rw [hf] at hopt; simp at hopt
    | some kw =>
      rw [hf] at hopt
      have he : mkInstanceOf m kw (w sc.1) hr = inst := by
        simpa using hopt
      have hf' : sc.2.find? (fun kw => hasKeyword kw m.text) = some kw := hf
      obtain ⟨hkw, pre, post, heq, hpre⟩ := find?_first_decomp sc.2 kw hf'
      subst he
      exact ⟨m, hm, pre, post, rfl, hkw, heq, hpre⟩
  · intro msgs
    refine ⟨?_, ?_, ?_, ?_, ?_⟩
    · show (msgs.map fun m => msgCategoryScore denyIndicators denyWeight m.text).sum ≤
        6 * msgs.length
      exact sum_msgCategoryScore_le msgs denyIndicators denyWeight 6 (by decide)
    · show (msgs.map fun m => msgCategoryScore attackIndicators attackWeight m.text).sum ≤
        15 * msgs.length
      exact sum_msgCategoryScore_le msgs attackIndicators attackWeight 15 (by decide)
    · show (msgs.map fun m => msgCategoryScore reverseIndicators reverseWeight m.text).sum ≤
        14 * msgs.length
      exact sum_msgCategoryScore_le msgs reverseIndicators reverseWeight 14 (by decide)
    · show (msgs.map fun m =>
          msgCategoryScore institutionalIndicators institutionalWeight m.text).sum ≤
        10 * msgs.length
      exact sum_msgCategoryScore_le msgs institutionalIndicators institutionalWeight 10 (by decide)
    · show (msgs.map fun m =>
          msgCategoryScore childFocusedIndicators (fun _ => 5) m.text).sum ≤
        15 * msgs.length
      exact sum_msgCategoryScore_le msgs childFocusedIndicators (fun _ => 5) 15 (by decide)

/-- C5 witness: the message "prove it those are complete lies" matches two
keywords of the Deny `outright_denial` subcategory but yields a single
instance recorded for the earlier keyword "prove it"; likewise the message
"parental alienation" yields a single instance of the child-focused
`parental_alienation_claims` subcategory. -/
theorem subcategory_dedup_first_match_witness :
    (∃ res : SubcatResult,
      ((denyIndicators.get ⟨1, by decide⟩).1, res) ∈
        detectPatternsFor denyIndicators denyWeight false
          [exMsg "prove it those are complete lies"] ∧
      res.count = res.instances.length ∧
      res.instances.length =
        ([exMsg "prove it those are complete lies"].countP fun m =>
          (denyIndicators.get ⟨1, by decide⟩).2.any fun kw => hasKeyword kw m.text) ∧
      (∀ inst ∈ res.instances, ∃ m ∈ [exMsg "prove it those are complete lies"], ∃ pre post,
        inst = mkInstanceOf m inst.keyword (denyWeight (denyIndicators.get ⟨1, by decide⟩).1) false ∧
        hasKeyword inst.keyword m.text = true ∧
        (denyIndicators.get ⟨1, by decide⟩).2 = pre ++ inst.keyword :: post ∧
        ∀ k ∈ pre, hasKeyword k m.text = false)) ∧
    (∃ res : SubcatResult,
      ((childFocusedIndicators.get ⟨1, by decide⟩).1, res) ∈
        detectPatternsFor childFocusedIndicators (fun _ => 5) true [exMsg "parental alienation"] ∧
      res.count = res.instances.length ∧
      res.instances.length =
        ([exMsg "parental alienation"].countP fun m =>
          (childFocusedIndicators.get ⟨1, by decide⟩).2.any fun kw => hasKeyword kw m.text) ∧
      (∀ inst ∈ res.instances, ∃ m ∈ [exMsg "parental alienation"], ∃ pre post,
        inst = mkInstanceOf m inst.keyword 5 true ∧
        hasKeyword inst.keyword m.text = true ∧
        (childFocusedIndicators.get ⟨1, by decide⟩).2 = pre ++ inst.keyword :: post ∧
        ∀ k ∈ pre, hasKeyword k m.text = false)) :=
  ⟨subcategory_dedup_first_match.1 [exMsg "prove it those are complete lies"] denyIndicators
      denyWeight false (denyIndicators.get ⟨1, by decide⟩) (List.get_mem _ _ _),
    subcategory_dedup_first_match.1 [exMsg "parental alienation"] childFocusedIndicators
      (fun _ => 5) true (childFocusedIndicators.get ⟨1, by decide⟩) (List.get_mem _ _ _)⟩

/-- Two weekly windows with role-hit totals 2 and 4 (days 4-5 are in the week
of Monday day 4, days 11-12 in the week of Monday day 11). -/
def exEscalating : List Message :=
  [exTimed "prove it" 4, exTimed "prove it" 5, exTimed "prove it" 11,
   exTimed "prove it" 11, exTimed "prove it" 12, exTimed "prove it" 12]

/-- Two weekly windows with role-hit totals 2 and 3. -/
def exSteady : List Message :=
  [exTimed "prove it" 4, exTimed "prove it" 5, exTimed "prove it" 11,
   exTimed "prove it" 11, exTimed "prove it" 12]

/-- C6: with at least two time windows, `escalation_detected` holds exactly
when the role-hit total of the last (largest) week key strictly exceeds 1.5
times the total of the first (smallest) week key — in exact arithmetic,
`2 * late > 3 * early`; with fewer than two windows it is false.  Window
totals 2 then 4 yield true, totals 2 then 3 yield false. -/
theorem timeline_escalation_threshold (msgs : List Message)
    (tw : List (Int × WindowCounts)) (esc : Bool) (n : Nat)
    (h : analyzeTimeline msgs = .available tw esc n) :
    (2 ≤ n →
      (esc = true ↔
        3 * windowTotal (lookupWindow tw
            ((sortInts (tw.map Prod.fst)).headD 0)) <
          2 * windowTotal (lookupWindow tw
            ((sortInts (tw.map Prod.fst)).getLastD 0)))) ∧
    (n < 2 → esc = false) ∧
    analyzeTimeline exEscalating = .available
      [(4, ⟨2, 0, 0, 0⟩), (11, ⟨4, 0, 0, 0⟩)] true 2 ∧
    analyzeTimeline exSteady = .available
      [(4, ⟨2, 0, 0, 0⟩), (11, ⟨3, 0, 0, 0⟩)] false 2 := by
  refine ⟨?_, ?_, by decide, by decide⟩
  · intro h2
    unfold analyzeTimeline at h
    by_cases hc : (msgs.isEmpty || !(msgs.any fun m => m.timestamp.isSome)) = true
    · rw [if_pos hc] at h; cases h
    · rw [if_neg hc] at h
      simp only [TimelineAnalysis.available.injEq] at h
      obtain ⟨h1, hesc, hn⟩ := h
      subst h1; subst hesc; subst hn
      rw [if_pos h2, decide_eq_true_iff]
  · intro h2
    unfold analyzeTimeline at h
    by_cases hc : (msgs.isEmpty || !(msgs.any fun m => m.timestamp.isSome)) = true
    · rw [if_pos hc] at h; cases h
    · rw [if_neg hc] at h
      simp only [TimelineAnalysis.available.injEq] at h
      obtain ⟨h1, hesc, hn⟩ := h
      subst h1; subst hesc; subst hn
      rw [if_neg (by omega)]

/-- C6 witness: on the escalating example (window totals 2 then 4) the
escalation rule instantiates to `3 * 2 < 2 * 4`, which holds. -/
theorem timeline_escalation_threshold_witness :
    (true : Bool) = true ↔ 3 * 2 < 2 * 4 := by
  have h := (timeline_escalation_threshold exEscalating
    [(4, ⟨2, 0, 0, 0⟩), (11, ⟨4, 0, 0, 0⟩)] true 2 (by decide)).1 (by omega)
  exact h

/-- C7 counterexample: the messages at days 0 and 4 are four days apart, both
inside the 7-day window anchored at the first message's timestamp (day 0), so
the claimed bucketing puts them in one bucket — but `_analyze_timeline`
assigns them the calendar-week Monday keys -3 and 4 and reports two
windows. -/
theorem timeline_first_anchor_counterexample :
    analyzeTimeline [exTimed "prove it" 0, exTimed "prove it" 4] =
      .available [(-3, ⟨1, 0, 0, 0⟩), (4, ⟨1, 0, 0, 0⟩)] false 2 ∧
    (exTimed "prove it" 0).timestamp = some 0 ∧
    (exTimed "prove it" 4).timestamp = some 4 ∧
    ((4 : Int) < 0 + 7) := by
  refine ⟨by decide, rfl, rfl, by decide⟩

/-- C7 (amended): the timeline analyzer buckets each timestamped role-hit
message by the Monday of its calendar week (`timestamp - weekday(timestamp)`
days), not by windows anchored at the first message; messages with a null
timestamp are silently skipped by the window-building loop while still
contributing to the content-based severity results, which ignore timestamps
entirely. -/
theorem timeline_calendar_week_buckets :
    (∀ (msgs : List Message) (m : Message) (t : Int), m ∈ msgs → m.timestamp = some t →
      (hasDenyRole m = true ∨ hasAttackRole m = true ∨ hasReverseRole m = true) →
      ∃ tw esc n, analyzeTimeline msgs = .available tw esc n ∧ weekStart t ∈ tw.map Prod.fst) ∧
    (∀ msgs : List Message,
      (msgs.filter fun m => m.timestamp.isSome).foldl timelineStep [] =
        msgs.foldl timelineStep []) ∧
    (∀ msgs : List Message,
      calcSeverity (msgs.map fun m => { m with timestamp := none }) = calcSeverity msgs) := by
  refine ⟨?_, fun msgs => foldl_timelineStep_filter msgs [], calcSeverity_text_only⟩
  intro msgs m t hm ht hrole
  have hne : msgs ≠ [] := by
    intro he
    rw [he] at hm
    cases hm
  have hany : (msgs.any fun mm => mm.timestamp.isSome) = true :=
    List.any_eq_true.mpr ⟨m, hm, by rw [ht]; rfl⟩
  obtain ⟨esc, n, heq⟩ := analyzeTimeline_available msgs hne hany
  exact ⟨_, esc, n, heq, foldl_timelineStep_key_mem msgs m t hm ht hrole⟩

/-- C7 witness: a single deny-keyword message at day 11 produces an available
timeline whose keys contain the Monday of day 11's week. -/
theorem timeline_calendar_week_buckets_witness :
    ∃ tw esc n, analyzeTimeline [exTimed "prove it" 11] = .available tw esc n ∧
      weekStart 11 ∈ tw.map Prod.fst :=
  timeline_calendar_week_buckets.1 [exTimed "prove it" 11] (exTimed "prove it" 11) 11
    (List.mem_singleton.mpr rfl) rfl (Or.inl (by decide))

/-- C8 counterexample: two runs of the analysis on the identical (empty)
input but different wall-clock readings produce different result structures —
the forensic summary's `analysis_date` is `datetime.now()`. -/
theorem analysis_date_counterexample :
    analyzeDarvoPatterns 0 [] "" ≠ analyzeDarvoPatterns 1 [] "" := by decide

/-- C8 (amended): apart from the wall-clock `analysis_date` field of the
forensic summary, message-list analysis is a deterministic function of the
messages and the static lexicon configuration, with no other time-dependent
value in the output beyond the caller-supplied timestamps. -/
theorem deterministic_up_to_analysis_date (n1 n2 : Int) (msgs : List Message) :
    stripAnalysisDate (analyzeDarvoPatterns n1 msgs "") =
      stripAnalysisDate (analyzeDarvoPatterns n2 msgs "") := by
  cases msgs with
  | nil => rfl
  | cons m rest => rfl

/-- C9: analyzing an empty message list with no document text is total and
returns the fully-populated zero-valued structure: empty pattern maps, empty
compound list, total score 0, risk level "low", and
`full_darvo_pattern_detected = false`. -/
theorem empty_input_zero_result (now : Int) :
    analyzeDarvoPatterns now [] "" = emptyResults now ∧
    (analyzeDarvoPatterns now [] "").deny_patterns = [] ∧
    (analyzeDarvoPatterns now [] "").attack_patterns = [] ∧
    (analyzeDarvoPatterns now [] "").reverse_patterns = [] ∧
    (analyzeDarvoPatterns now [] "").institutional_patterns = [] ∧
    (analyzeDarvoPatterns now [] "").child_focused_patterns = [] ∧
    (analyzeDarvoPatterns now [] "").compound_patterns = [] ∧
    (analyzeDarvoPatterns now [] "").severity_assessment.total_score = 0 ∧
    (analyzeDarvoPatterns now [] "").severity_assessment.risk_level = "low" ∧
    (analyzeDarvoPatterns now [] "").forensic_summary.full_darvo_pattern_detected = false ∧
    (analyzeDarvoPatterns now [] "").forensic_summary.instance_counts = ⟨0, 0, 0, 0⟩ :=
  ⟨rfl, rfl, rfl, rfl, rfl, rfl, rfl, rfl, rfl, rfl, rfl⟩

/-- C10: with an empty message list and non-empty text,
`analyze_darvo_patterns` wraps the text into exactly one message with sender
"Document", platform "document" and the wall-clock timestamp, runs the usual
conversation analysis on it, and consequently reports an available
timeline. -/
theorem document_mode_single_message (now : Int) (txt : String) (h : txt ≠ "") :
    analyzeDarvoPatterns now [] txt = analyzeConversation now [documentMessage now txt] ∧
    (documentMessage now txt).sender = "Document" ∧
    (documentMessage now txt).platform = "document" ∧
    (documentMessage now txt).timestamp = some now ∧
    (analyzeDarvoPatterns now [] txt).timeline_analysis.isAvailable = true := by
  have h1 : analyzeDarvoPatterns now [] txt = analyzeConversation now [documentMessage now txt] := by
    unfold analyzeDarvoPatterns
    rw [if_neg (by decide), if_pos h]
  refine ⟨h1, rfl, rfl, rfl, ?_⟩
  rw [h1]
  rfl

/-- C10 witness: the document "hello" is wrapped into one Document message
and yields an available timeline. -/
theorem document_mode_single_message_witness :
    analyzeDarvoPatterns 7 [] "hello" = analyzeConversation 7 [documentMessage 7 "hello"] ∧
    (documentMessage 7 "hello").sender = "Document" ∧
    (documentMessage 7 "hello").platform = "document" ∧
    (documentMessage 7 "hello").timestamp = some 7 ∧
    (analyzeDarvoPatterns 7 [] "hello").timeline_analysis.isAvailable = true :=
  document_mode_single_message 7 "hello" (by decide)

end CCA
